import Mathlib

/-!
Shallow embedding of `cloud/scope/powervs_image.go` from
cluster-api-provider-ibmcloud: the PowerVS image scope with its
`CreateImageCOSBucket` (EnsureImage) operation, the delete operations and
the status accessors.

Go pointers are modelled as `Option`; dereferencing `none` is a Go runtime
panic, modelled by the `Res.panic` outcome.  Go `error` values are modelled
as `Option String` (`none` = nil error).  The remote client
(`IBMPowerVSClient`) is an external collaborator, modelled as an oracle of
responses supplied to each invocation.  Events emitted through the
`record` package are collected in the result.
-/

/-- Outcome of running a fragment of Go code: either a runtime panic
(nil-pointer dereference) or a normal result. -/
inductive Res (α : Type) where
  | panic : Res α
  | ok : α → Res α
deriving DecidableEq

/-- Remote image record (`models.ImageReference`); its fields are string
pointers in Go, hence `Option String` here. -/
structure ImageReference where
  name : Option String
  imageID : Option String
deriving DecidableEq

/-- Result of `GetAllImage` (`models.Images`): a slice of pointers to
image references. -/
structure Images where
  images : List (Option ImageReference)
deriving DecidableEq

/-- Job status record (`models.Status`); `State` is a string pointer. -/
structure JobStatusRec where
  state : Option String
deriving DecidableEq

/-- Remote job record (`models.Job`); its `Status` field is a pointer. -/
structure Job where
  status : Option JobStatusRec
deriving DecidableEq

/-- Job reference returned by `CreateCosImage` (`models.JobReference`);
`ID` is a string pointer. -/
structure JobReference where
  id : Option String
deriving DecidableEq

/-- Modelled from the spec: the managed resource's immutable spec
(`infrav1beta1.IBMPowerVSImageSpec`, defined in the repository's API
package which is not among the shown sources).  Per the spec data model it
carries `serviceInstanceID`, `bucket`, `object`, `region`,
`storageType`. -/
structure IBMPowerVSImageSpec where
  serviceInstanceID : String
  bucket : String
  object : String
  region : String
  storageType : String
deriving DecidableEq

/-- Modelled from the spec: the managed resource's mutable status
(`infrav1beta1.IBMPowerVSImageStatus`, defined in the repository's API
package which is not among the shown sources).  Per the spec data model:
`ready : bool`, `imageID : string` (empty = unset), `imageState` (string
enum) and `jobID : string` (empty = unset), matching the accesses made by
the shown scope code. -/
structure IBMPowerVSImageStatus where
  ready : Bool
  imageID : String
  imageState : String
  jobID : String
deriving DecidableEq

/-- Modelled from the spec: the managed resource
(`infrav1beta1.IBMPowerVSImage`): object meta name, spec and status. -/
structure IBMPowerVSImage where
  name : String
  spec : IBMPowerVSImageSpec
  status : IBMPowerVSImageStatus
deriving DecidableEq

/-- Kind of a recorded event: `record.Eventf` emits a normal event,
`record.Warnf` a warning event. -/
inductive EventKind where
  | normal : EventKind
  | warning : EventKind
deriving DecidableEq

/-- One event recorded against the resource: kind, reason and formatted
message. -/
structure Event where
  kind : EventKind
  reason : String
  message : String
deriving DecidableEq

/-- Oracle of remote-client responses for one invocation: the value/error
pairs the `IBMPowerVSClient` methods would return.  `getCosImages` and the
delete methods are keyed by the string argument the code passes them. -/
structure ClientResponses where
  getAllImage : Option Images × Option String
  getCosImages : String → Option Job × Option String
  createCosImage : Option JobReference × Option String
  deleteImage : String → Option String
  deleteJob : String → Option String

/-- The `range images.Images` loop body of `ensureImageUnique`: linear
scan returning the first image whose dereferenced name equals
`imageName`.  Dereferencing a nil slice element or a nil `Name` panics. -/
def findImage : List (Option ImageReference) → String → Res (Option ImageReference)
  | [], _ => .ok none
  | none :: _, _ => .panic
  | some img :: rest, imageName =>
      match img.name with
      | none => .panic
      | some n => if n = imageName then .ok (some img) else findImage rest imageName

/-- Embedding of `ensureImageUnique`: list all remote images, return the
error on failure, otherwise the first name match (or nil, nil). -/
def ensureImageUnique (c : ClientResponses) (imageName : String) :
    Res (Option ImageReference × Option String) :=
  match c.getAllImage with
  | (images, err) =>
    match err with
    | some e => .ok (none, some e)
    | none =>
      match images with
      | none => .panic
      | some imgs =>
        match findImage imgs.images imageName with
        | .panic => .panic
        | .ok r => .ok (r, none)

/-- Embedding of the `BucketAccess` constant. -/
def BucketAccess : String := "public"

/-- Embedding of `GetImportJob`: fetch the COS import job keyed by the
spec's service instance ID. -/
def GetImportJob (img : IBMPowerVSImage) (c : ClientResponses) :
    Option Job × Option String :=
  c.getCosImages img.spec.serviceInstanceID

/-- The `models.CreateCosImageImportJob` body built by
`CreateImageCOSBucket`. -/
structure CreateCosImageImportJob where
  imageName : String
  bucketName : String
  bucketAccess : String
  region : String
  imageFilename : String
  storageType : String
deriving DecidableEq

/-- The import-job body as `CreateImageCOSBucket` constructs it from the
resource's meta name and spec. -/
def mkImportJobBody (img : IBMPowerVSImage) : CreateCosImageImportJob :=
  { imageName := img.name
    bucketName := img.spec.bucket
    bucketAccess := BucketAccess
    region := img.spec.region
    imageFilename := img.spec.object
    storageType := img.spec.storageType }

/-- Observable outcome of one `CreateImageCOSBucket` invocation: the
returned triple, the events recorded, the keys passed to `GetCosImages`
and the bodies submitted to `CreateCosImage`. -/
structure EnsureResult where
  image : Option ImageReference
  job : Option JobReference
  err : Option String
  events : List Event
  getJobQueries : List String
  createReqs : List CreateCosImageImportJob
deriving DecidableEq

/-- Tail of `CreateImageCOSBucket` from the `body := ...` literal on:
submit the import-job request and handle the client's reply. -/
def submitImportJob (img : IBMPowerVSImage) (c : ClientResponses)
    (q : List String) : Res EnsureResult :=
  match c.createCosImage with
  | (jobRef, err) =>
    match err with
    | some e =>
        .ok { image := none, job := none, err := some e,
              events := [⟨.warning, "FailedCreateImageImportJob",
                          "Failed image import job creation - " ++ e⟩],
              getJobQueries := q, createReqs := [mkImportJobBody img] }
    | none =>
      match jobRef with
      | none => .panic
      | some jobRef =>
        match jobRef.id with
        | none => .panic
        | some jid =>
            .ok { image := none, job := some jobRef, err := none,
                  events := [⟨.normal, "SuccessfulCreateImageImportJob",
                              "Created image import job " ++ jid⟩],
                  getJobQueries := q, createReqs := [mkImportJobBody img] }

/-- Embedding of `CreateImageCOSBucket`: dedup by name against the remote
listing, suppress creation while a previous import job is still running,
otherwise submit a new import job.  Mirrors the source line by line,
including the dereference of the nil `imageReply` in the listing-failure
warning (a panic). -/
def CreateImageCOSBucket (img : IBMPowerVSImage) (c : ClientResponses) :
    Res EnsureResult :=
  match ensureImageUnique c img.name with
  | .panic => .panic
  | .ok (imageReply, err) =>
    match err with
    | some e =>
      match imageReply with
      | none => .panic
      | some r =>
        match r.name with
        | none => .panic
        | some n =>
            .ok { image := none, job := none, err := some e,
                  events := [⟨.warning, "FailedRetriveImage",
                              "Failed to retrieve image " ++ n⟩],
                  getJobQueries := [], createReqs := [] }
    | none =>
      match imageReply with
      | some r =>
        match r.name with
        | none => .panic
        | some n =>
            .ok { image := some r, job := none, err := none,
                  events := [⟨.normal, "SuccessfulRetriveImage",
                              "Retrieved Image " ++ n⟩],
                  getJobQueries := [], createReqs := [] }
      | none =>
        match GetImportJob img c with
        | (lastJob, _) =>
          match lastJob with
          | some lastJob =>
            match lastJob.status with
            | none => .panic
            | some st =>
              match st.state with
              | none => .panic
              | some s =>
                  if s != "completed" && s != "failed" then
                    .ok { image := none, job := none, err := none,
                          events := [],
                          getJobQueries := [img.spec.serviceInstanceID],
                          createReqs := [] }
                  else
                    submitImportJob img c [img.spec.serviceInstanceID]
          | none => submitImportJob img c [img.spec.serviceInstanceID]

/-- Embedding of `DeleteImage`: one remote delete keyed by the stored
`Status.ImageID`; returns the error, the events recorded and the (never
mutated) status. -/
def DeleteImage (st : IBMPowerVSImageStatus) (remoteDelete : String → Option String) :
    Option String × List Event × IBMPowerVSImageStatus :=
  match remoteDelete st.imageID with
  | some e =>
      (some e, [⟨.warning, "FailedDeleteImage", "Failed image deletion - " ++ e⟩], st)
  | none =>
      (none, [⟨.normal, "SuccessfulDeleteImage", "Deleted Image " ++ st.imageID⟩], st)

/-- Embedding of `DeleteImportJob`: one remote delete keyed by the stored
`Status.JobID`; returns the error, the events recorded and the (never
mutated) status.  Reason strings keep the source's spelling. -/
def DeleteImportJob (st : IBMPowerVSImageStatus) (remoteDelete : String → Option String) :
    Option String × List Event × IBMPowerVSImageStatus :=
  match remoteDelete st.jobID with
  | some e =>
      (some e, [⟨.warning, "FailedDeleteImageImoprtJob",
                 "Failed image import job deletion - " ++ e⟩], st)
  | none =>
      (none, [⟨.normal, "SuccessfulDeleteImageImoprtJob",
               "Deleted image import job " ++ st.jobID⟩], st)

/-- Embedding of `SetReady`. -/
def SetReady (st : IBMPowerVSImageStatus) : IBMPowerVSImageStatus :=
  { st with ready := true }

/-- Embedding of `SetNotReady`. -/
def SetNotReady (st : IBMPowerVSImageStatus) : IBMPowerVSImageStatus :=
  { st with ready := false }

/-- Embedding of `SetImageID`: the id is a string pointer, dereferenced
only under the non-nil guard, so a nil argument is a no-op. -/
def SetImageID (st : IBMPowerVSImageStatus) (id : Option String) :
    IBMPowerVSImageStatus :=
  match id with
  | some v => { st with imageID := v }
  | none => st

/-- Embedding of `SetImageState`. -/
def SetImageState (st : IBMPowerVSImageStatus) (s : String) : IBMPowerVSImageStatus :=
  { st with imageState := s }

/-- Embedding of `SetJobID`. -/
def SetJobID (st : IBMPowerVSImageStatus) (id : String) : IBMPowerVSImageStatus :=
  { st with jobID := id }

/-- One status-mutating operation of the scope, for the reachability
analysis: the setters plus the delete operations (each delete carries the
remote client's response function). -/
inductive ScopeOp where
  | setReady : ScopeOp
  | setNotReady : ScopeOp
  | setImageID : Option String → ScopeOp
  | setImageState : String → ScopeOp
  | setJobID : String → ScopeOp
  | deleteImage : (String → Option String) → ScopeOp
  | deleteImportJob : (String → Option String) → ScopeOp

/-- Effect of one scope operation on the status. -/
def applyOp (st : IBMPowerVSImageStatus) : ScopeOp → IBMPowerVSImageStatus
  | .setReady => SetReady st
  | .setNotReady => SetNotReady st
  | .setImageID id => SetImageID st id
  | .setImageState s => SetImageState st s
  | .setJobID id => SetJobID st id
  | .deleteImage remote => (DeleteImage st remote).2.2
  | .deleteImportJob remote => (DeleteImportJob st remote).2.2

/-- The Go zero value of the status: not ready, empty ids, empty state. -/
def initialStatus : IBMPowerVSImageStatus :=
  { ready := false, imageID := "", imageState := "", jobID := "" }

/-- Statuses reachable from the zero value by the scope's operations. -/
inductive Reachable : IBMPowerVSImageStatus → Prop where
  | init : Reachable initialStatus
  | step {st : IBMPowerVSImageStatus} (op : ScopeOp) :
      Reachable st → Reachable (applyOp st op)

/-- The `CreateCosImage` response neither is (nil, nil) nor carries a nil
`ID` on success, so the submit tail runs without a nil dereference. -/
def createRespOk (c : ClientResponses) : Bool :=
  match c.createCosImage with
  | (_, some _) => true
  | (none, none) => false
  | (some jr, none) => jr.id.isSome

/-- A sample managed resource used to exercise the embedding. -/
def exImg : IBMPowerVSImage :=
  { name := "img-a"
    spec := { serviceInstanceID := "svc-1", bucket := "bucket-1",
              object := "object-1", region := "us-south", storageType := "tier1" }
    status := initialStatus }

/-- A client whose listing is empty, with no previous job and a healthy
create response. -/
def quietClient : ClientResponses :=
  { getAllImage := (some ⟨[]⟩, none)
    getCosImages := fun _ => (none, none)
    createCosImage := (some ⟨some "job-9"⟩, none)
    deleteImage := fun _ => none
    deleteJob := fun _ => none }

/-- Client whose image listing fails. -/
def exClientC1 : ClientResponses :=
  { quietClient with getAllImage := (none, some "listing failed") }

/-- Resource with a previously recorded import-job id. -/
def exImgC3 : IBMPowerVSImage :=
  { exImg with status := { initialStatus with jobID := "job-1" } }

/-- Client reporting a previous import job still in progress. -/
def exClientC4 : ClientResponses :=
  { quietClient with getCosImages := fun _ => (some ⟨some ⟨some "in-progress"⟩⟩, none) }

/-- Client whose listing already contains the sample resource's image. -/
def exClientC5 : ClientResponses :=
  { quietClient with getAllImage := (some ⟨[some ⟨some "img-a", some "123"⟩]⟩, none) }

/-- Client reporting a previous import job that failed. -/
def exClientC6 : ClientResponses :=
  { quietClient with getCosImages := fun _ => (some ⟨some ⟨some "failed"⟩⟩, none) }

/-- Client whose import-job fetch fails with a nil job. -/
def exClientC10 : ClientResponses :=
  { quietClient with getCosImages := fun _ => (none, some "fetch failed") }

/-- The ensure-result of running the sample resource against
`quietClient`: empty listing, no previous job, new job created. -/
def exResQuiet : EnsureResult :=
  { image := none, job := some ⟨some "job-9"⟩, err := none,
    events := [⟨.normal, "SuccessfulCreateImageImportJob",
                "Created image import job " ++ "job-9"⟩],
    getJobQueries := ["svc-1"], createReqs := [mkImportJobBody exImg] }

/-- Helper: a well-formed create response makes the submit tail succeed,
recording exactly the body built from the spec. -/
theorem submitImportJob_ok (img : IBMPowerVSImage) (c : ClientResponses)
    (q : List String) (hc : createRespOk c = true) :
    ∃ res, submitImportJob img c q = .ok res ∧
      res.createReqs = [mkImportJobBody img] ∧
      res.getJobQueries = q ∧
      res.err = c.createCosImage.2 ∧ res.image = none := by
  unfold createRespOk at hc
  unfold submitImportJob
  rcases hcc : c.createCosImage with ⟨jr, err⟩
  rw [hcc] at hc
  cases err with
  | some e => exact ⟨_, rfl, rfl, rfl, rfl, rfl⟩
  | none =>
    rcases jr with _ | ⟨_ | jid⟩
    · exact Bool.noConfusion hc
    · exact Bool.noConfusion hc
    · exact ⟨_, rfl, rfl, rfl, rfl, rfl⟩

/-- C1: the spec requires that a failing remote listing yields one warning
event with the remote error, the error returned and no state mutated; the
code instead dereferences the nil `imageReply` while formatting the
warning (`*imageReply.Name`), so the invocation panics: no event is
emitted and no error is returned. -/
theorem createImageCOSBucket_listing_failure_panics :
    exClientC1.getAllImage = (none, some "listing failed") ∧
    CreateImageCOSBucket exImg exClientC1 = .panic :=
  ⟨rfl, rfl⟩

/-- C2 counterexample: applying `SetReady` to the zero status yields a
reachable status with `Ready = true` and an empty `ImageID`, refuting the
claimed invariant `Ready = true ↔ ImageID ≠ ""` over reachable states. -/
theorem ready_without_imageID_reachable :
    Reachable (applyOp initialStatus .setReady) ∧
    ¬((applyOp initialStatus .setReady).ready = true ↔
      (applyOp initialStatus .setReady).imageID ≠ "") :=
  ⟨Reachable.step .setReady Reachable.init, by decide⟩

/-- C2 amended: the equivalence `Ready = true ↔ ImageID ≠ ""` holds in the
initial status but is not preserved by the scope's operations: `SetReady`
and `SetNotReady` mutate only `Ready`, and `SetImageID` mutates only
`ImageID`, so the two fields are independent and maintaining the
equivalence is the caller's obligation. -/
theorem ready_imageID_fields_independent :
    (initialStatus.ready = true ↔ initialStatus.imageID ≠ "") ∧
    ∀ st : IBMPowerVSImageStatus,
      (SetReady st).ready = true ∧ (SetReady st).imageID = st.imageID ∧
      (SetNotReady st).ready = false ∧ (SetNotReady st).imageID = st.imageID ∧
      ∀ id, (SetImageID st id).ready = st.ready := by
  refine ⟨by decide, fun st => ⟨rfl, rfl, rfl, rfl, fun id => ?_⟩⟩
  cases id <;> rfl

/-- C8: when the remote delete fails, `DeleteImage` (resp.
`DeleteImportJob`) records exactly one warning event carrying the remote
error, returns that error, and leaves the whole status record
unchanged. -/
theorem delete_failure_one_warning_status_unchanged
    (st : IBMPowerVSImageStatus) (remoteImg remoteJob : String → Option String)
    (e1 e2 : String)
    (h1 : remoteImg st.imageID = some e1) (h2 : remoteJob st.jobID = some e2) :
    DeleteImage st remoteImg =
      (some e1, [⟨.warning, "FailedDeleteImage", "Failed image deletion - " ++ e1⟩], st) ∧
    DeleteImportJob st remoteJob =
      (some e2, [⟨.warning, "FailedDeleteImageImoprtJob",
                  "Failed image import job deletion - " ++ e2⟩], st) := by
  unfold DeleteImage DeleteImportJob
  rw [h1, h2]
  exact ⟨rfl, rfl⟩

/-- C8 witness: a concrete failing delete of both kinds. -/
theorem delete_failure_one_warning_status_unchanged_witness :
    DeleteImage initialStatus (fun _ => some "img boom") =
      (some "img boom",
       [⟨.warning, "FailedDeleteImage", "Failed image deletion - " ++ "img boom"⟩],
       initialStatus) ∧
    DeleteImportJob initialStatus (fun _ => some "job boom") =
      (some "job boom",
       [⟨.warning, "FailedDeleteImageImoprtJob",
         "Failed image import job deletion - " ++ "job boom"⟩],
       initialStatus) :=
  delete_failure_one_warning_status_unchanged initialStatus
    (fun _ => some "img boom") (fun _ => some "job boom") "img boom" "job boom" rfl rfl

/-- C9: `SetImageID` with a nil pointer is a no-op leaving the whole
status unchanged (the dereference sits under the non-nil guard, so the
model is total: no panic case exists); a non-nil pointer overwrites
exactly `ImageID`. -/
theorem setImageID_nil_noop :
    ∀ (st : IBMPowerVSImageStatus),
      SetImageID st none = st ∧
      ∀ v, SetImageID st (some v) = { st with imageID := v } :=
  fun _ => ⟨rfl, fun _ => rfl⟩

/-- Helper: `CreateImageCOSBucket` reads only the resource's meta name and
spec, never its status. -/
theorem createImageCOSBucket_status_independent (n : String)
    (sp : IBMPowerVSImageSpec) (st st' : IBMPowerVSImageStatus)
    (c : ClientResponses) :
    CreateImageCOSBucket ⟨n, sp, st⟩ c = CreateImageCOSBucket ⟨n, sp, st'⟩ c := rfl

/-- C3 counterexample: with a stored `jobID = "job-1"` and
`serviceInstanceID = "svc-1"`, the job fetch inside `CreateImageCOSBucket`
is keyed by `"svc-1"`, not by the stored job identity, refuting the claim
that the last job is queried by the jobID recorded in status. -/
theorem getImportJob_ignores_status_jobID :
    exImgC3.status.jobID = "job-1" ∧
    CreateImageCOSBucket exImgC3 quietClient = .ok exResQuiet ∧
    exResQuiet.getJobQueries = ["svc-1"] ∧ ("svc-1" : String) ≠ "job-1" :=
  ⟨rfl, rfl, rfl, by decide⟩

/-- C3 amended: when no remote image matches, the last known import job is
queried by the spec's service instance ID (`GetCosImages(ServiceInstanceID)`);
the jobID recorded in status is never consulted — the whole operation is
independent of the status record. -/
theorem getImportJob_query_is_serviceInstanceID (img : IBMPowerVSImage)
    (c : ClientResponses) (res : EnsureResult) (st' : IBMPowerVSImageStatus)
    (hnomatch : ensureImageUnique c img.name = .ok (none, none))
    (hok : CreateImageCOSBucket img c = .ok res) :
    res.getJobQueries = [img.spec.serviceInstanceID] ∧
    CreateImageCOSBucket { img with status := st' } c =
      CreateImageCOSBucket img c := by
  constructor
  · unfold CreateImageCOSBucket GetImportJob submitImportJob at hok
    simp only [hnomatch] at hok
    repeat' split at hok
    all_goals first
      | exact Res.noConfusion hok
      | (injection hok with hok; subst hok; rfl)
  · obtain ⟨n, sp, stt⟩ := img
    exact createImageCOSBucket_status_independent n sp st' stt c

/-- C3 amended witness: a concrete no-match run queries by `"svc-1"` and
is insensitive to the stored status. -/
theorem getImportJob_query_is_serviceInstanceID_witness :
    exResQuiet.getJobQueries = ["svc-1"] ∧
    CreateImageCOSBucket { exImgC3 with status := initialStatus } quietClient =
      CreateImageCOSBucket exImgC3 quietClient :=
  getImportJob_query_is_serviceInstanceID exImgC3 quietClient exResQuiet
    initialStatus rfl rfl

/-- C4: with no name match and a fetched previous job whose state is
neither `completed` nor `failed`, `CreateImageCOSBucket` returns nil
image, nil job and nil error, records no event and submits no create
request. -/
theorem ensureImage_inflight_job_noop (img : IBMPowerVSImage)
    (c : ClientResponses) (j : Job) (js : JobStatusRec) (s : String)
    (jerr : Option String)
    (hnomatch : ensureImageUnique c img.name = .ok (none, none))
    (hjob : c.getCosImages img.spec.serviceInstanceID = (some j, jerr))
    (hst : j.status = some js) (hs : js.state = some s)
    (h1 : s ≠ "completed") (h2 : s ≠ "failed") :
    CreateImageCOSBucket img c =
      .ok { image := none, job := none, err := none, events := [],
            getJobQueries := [img.spec.serviceInstanceID], createReqs := [] } := by
  unfold CreateImageCOSBucket GetImportJob
  have hcond : (s != "completed" && s != "failed") = true := by
    simp [bne_iff_ne, h1, h2]
  simp only [hnomatch, hjob, hst, hs, hcond, if_true]

/-- C4 witness: a concrete in-progress previous job suppresses creation. -/
theorem ensureImage_inflight_job_noop_witness :
    CreateImageCOSBucket exImg exClientC4 =
      .ok { image := none, job := none, err := none, events := [],
            getJobQueries := ["svc-1"], createReqs := [] } :=
  ensureImage_inflight_job_noop exImg exClientC4 ⟨some ⟨some "in-progress"⟩⟩
    ⟨some "in-progress"⟩ "in-progress" none rfl rfl rfl rfl
    (by decide) (by decide)

/-- Helper: the linear scan of `ensureImageUnique` returns the first
image whose name matches, in listing order. -/
theorem findImage_first_match (pre rest : List (Option ImageReference))
    (r : ImageReference) (nm : String) (hr : r.name = some nm)
    (hpre : ∀ x ∈ pre, ∃ ir n, x = some ir ∧ ir.name = some n ∧ n ≠ nm) :
    findImage (pre ++ some r :: rest) nm = .ok (some r) := by
  induction pre with
  | nil => simp [findImage, hr]
  | cons hd tl ih =>
    obtain ⟨ir, n, hx, hn, hne⟩ := hpre hd (List.mem_cons_self hd tl)
    subst hx
    have htl := ih (fun x hx => hpre x (List.mem_cons_of_mem _ hx))
    simp [findImage, hn, hne, htl]

/-- C5: when the listing succeeds and contains an image named like the
resource (first such match after non-matching named entries),
`CreateImageCOSBucket` returns that record with nil job and nil error,
records exactly one success event, and submits no create request. -/
theorem ensureImage_existing_image_shortcircuit (img : IBMPowerVSImage)
    (c : ClientResponses) (pre rest : List (Option ImageReference))
    (r : ImageReference)
    (hlist : c.getAllImage = (some ⟨pre ++ some r :: rest⟩, none))
    (hr : r.name = some img.name)
    (hpre : ∀ x ∈ pre, ∃ ir n, x = some ir ∧ ir.name = some n ∧ n ≠ img.name) :
    CreateImageCOSBucket img c =
      .ok { image := some r, job := none, err := none,
            events := [⟨.normal, "SuccessfulRetriveImage",
                        "Retrieved Image " ++ img.name⟩],
            getJobQueries := [], createReqs := [] } := by
  have hfind := findImage_first_match pre rest r img.name hr hpre
  unfold CreateImageCOSBucket ensureImageUnique
  simp only [hlist, hfind, hr]

/-- C5 witness: a listing already holding `{name: img-a, id: 123}` is
returned as-is for the resource named `img-a`. -/
theorem ensureImage_existing_image_shortcircuit_witness :
    CreateImageCOSBucket exImg exClientC5 =
      .ok { image := some ⟨some "img-a", some "123"⟩, job := none, err := none,
            events := [⟨.normal, "SuccessfulRetriveImage",
                        "Retrieved Image " ++ "img-a"⟩],
            getJobQueries := [], createReqs := [] } :=
  ensureImage_existing_image_shortcircuit exImg exClientC5 [] []
    ⟨some "img-a", some "123"⟩ rfl rfl (by simp)

/-- C6: with no name match and a fetched previous job in a terminal state
(`completed` or `failed`), `CreateImageCOSBucket` submits exactly one new
import-job request built from the meta name and the spec fields, with
bucket access fixed to `"public"`. -/
theorem ensureImage_terminal_job_creates_new (img : IBMPowerVSImage)
    (c : ClientResponses) (j : Job) (js : JobStatusRec) (s : String)
    (jerr : Option String)
    (hnomatch : ensureImageUnique c img.name = .ok (none, none))
    (hjob : c.getCosImages img.spec.serviceInstanceID = (some j, jerr))
    (hst : j.status = some js) (hs : js.state = some s)
    (hterm : s = "completed" ∨ s = "failed")
    (hc : createRespOk c = true) :
    ∃ res, CreateImageCOSBucket img c = .ok res ∧
      res.createReqs = [mkImportJobBody img] ∧
      mkImportJobBody img =
        { imageName := img.name, bucketName := img.spec.bucket,
          bucketAccess := "public", region := img.spec.region,
          imageFilename := img.spec.object, storageType := img.spec.storageType } := by
  obtain ⟨res, hok, hreq, hq, herr, him⟩ :=
    submitImportJob_ok img c [img.spec.serviceInstanceID] hc
  refine ⟨res, ?_, hreq, rfl⟩
  unfold CreateImageCOSBucket GetImportJob
  have hcond : (s != "completed" && s != "failed") = false := by
    rcases hterm with h | h <;> subst h <;> simp
  simp only [hnomatch, hjob, hst, hs, hcond, Bool.false_eq_true, if_false]
  exact hok

/-- C6 witness: a previous `failed` job leads to one create request built
from the sample spec with public bucket access. -/
theorem ensureImage_terminal_job_creates_new_witness :
    ∃ res, CreateImageCOSBucket exImg exClientC6 = .ok res ∧
      res.createReqs = [mkImportJobBody exImg] ∧
      mkImportJobBody exImg =
        { imageName := "img-a", bucketName := "bucket-1",
          bucketAccess := "public", region := "us-south",
          imageFilename := "object-1", storageType := "tier1" } :=
  ensureImage_terminal_job_creates_new exImg exClientC6 ⟨some ⟨some "failed"⟩⟩
    ⟨some "failed"⟩ "failed" none rfl rfl rfl rfl (Or.inr rfl) rfl

/-- C7: any normally-returning invocation of `CreateImageCOSBucket` never
carries both a non-nil image reference and a non-nil job reference. -/
theorem ensureImage_never_both_image_and_job (img : IBMPowerVSImage)
    (c : ClientResponses) (res : EnsureResult)
    (h : CreateImageCOSBucket img c = .ok res) :
    res.image = none ∨ res.job = none := by
  unfold CreateImageCOSBucket GetImportJob submitImportJob at h
  repeat' split at h
  all_goals first
    | exact Res.noConfusion h
    | (injection h with h; subst h; first | exact Or.inl rfl | exact Or.inr rfl)

/-- C7 witness: the concrete quiet run returns a job and a nil image. -/
theorem ensureImage_never_both_image_and_job_witness :
    exResQuiet.image = none ∨ exResQuiet.job = none :=
  ensureImage_never_both_image_and_job exImg quietClient exResQuiet rfl

/-- C10: when no remote image matches and the import-job fetch itself
fails with a nil job, the fetch error is discarded: the call still submits
the create request and its returned error is exactly the create call's
error, not the fetch error. -/
theorem ensureImage_fetch_error_discarded (img : IBMPowerVSImage)
    (c : ClientResponses) (e : String)
    (hnomatch : ensureImageUnique c img.name = .ok (none, none))
    (hjob : c.getCosImages img.spec.serviceInstanceID = (none, some e))
    (hc : createRespOk c = true) :
    ∃ res, CreateImageCOSBucket img c = .ok res ∧
      res.createReqs = [mkImportJobBody img] ∧
      res.err = c.createCosImage.2 := by
  obtain ⟨res, hok, hreq, hq, herr, him⟩ :=
    submitImportJob_ok img c [img.spec.serviceInstanceID] hc
  refine ⟨res, ?_, hreq, herr⟩
  unfold CreateImageCOSBucket GetImportJob
  simp only [hnomatch, hjob]
  exact hok

/-- C10 witness: a failing fetch with nil job still leads to creation. -/
theorem ensureImage_fetch_error_discarded_witness :
    ∃ res, CreateImageCOSBucket exImg exClientC10 = .ok res ∧
      res.createReqs = [mkImportJobBody exImg] ∧
      res.err = exClientC10.createCosImage.2 :=
  ensureImage_fetch_error_discarded exImg exClientC10 "fetch failed" rfl rfl rfl
